import Mathlib

/-!
Verification of the HITMaal episode scraper (scraper.py) against its
natural-language specification.

The Python source is shallowly embedded below.  Pure string processing is
translated directly; the BeautifulSoup DOM layer is represented by explicit
data (an Element carries the texts and attributes the code reads from a parsed
node, a Soup carries the lookup the code performs with soup.find).  Fallible
network operations are embedded as total functions over an explicit outcome
type.  The playback-manifest resolver described by the specification has no
counterpart in the source tree; the definitions for it are modelled from the
specification text and are marked as such.
-/

/-! ## String helpers mirroring Python primitives -/

/-- Bool test: does the second list contain the first as a contiguous segment?
Mirrors the Python membership test `pat in s` on strings. -/
def segInList (pat : List Char) : List Char → Bool
  | [] => pat.isEmpty
  | l@(_ :: t) => pat.isPrefixOf l || segInList pat t

/-- Python `pat in s` on strings. -/
def strContainsSeg (s pat : String) : Bool :=
  segInList pat.data s.data

/-- Python `s.split()`: split on whitespace, dropping empty chunks. -/
def pySplit (s : String) : List String :=
  (s.split fun c => c.isWhitespace).filter fun t => !(t == "")

/-! ## Regular-expression searches used by scraper.py

`extract_episode_data` searches the element text with two regular patterns.
They are embedded as explicit scanning functions with the same leftmost-match
and greedy/backtracking behaviour as `re.search`. -/

/-- Match of the duration pattern (one or two digits, a colon, two digits) at
the head of the character list, preferring the two-digit form, as the greedy
pattern does. -/
def matchTimeAt (l : List Char) : Option String :=
  match l with
  | a :: b :: c :: d :: e :: _ =>
    if a.isDigit ∧ b.isDigit ∧ c = ':' ∧ d.isDigit ∧ e.isDigit then some ⟨[a, b, c, d, e]⟩
    else if a.isDigit ∧ b = ':' ∧ c.isDigit ∧ d.isDigit then some ⟨[a, b, c, d]⟩
    else none
  | [a, b, c, d] =>
    if a.isDigit ∧ b = ':' ∧ c.isDigit ∧ d.isDigit then some ⟨[a, b, c, d]⟩
    else none
  | _ => none

/-- Scan for the leftmost duration match. -/
def timeGo : List Char → Option String
  | [] => none
  | l@(_ :: t) => (matchTimeAt l).orElse fun _ => timeGo t

/-- `re.search` for the duration pattern over a string. -/
def findTimeMatch (s : String) : Option String :=
  timeGo s.data

/-- Case-insensitive literal match: returns the matched original characters
and the remainder of the input. -/
def matchCI : List Char → List Char → Option (List Char × List Char)
  | [], l => some ([], l)
  | _ :: _, [] => none
  | p :: ps, c :: cs =>
    if p.toLower = c.toLower then
      match matchCI ps cs with
      | some (m, rest) => some (c :: m, rest)
      | none => none
    else none

/-- After the time-unit word: optional whitespace then the literal Ago,
case-insensitively.  Returns the matched characters. -/
def matchAgoTail (l : List Char) : Option (List Char) :=
  let ws := l.takeWhile Char.isWhitespace
  match matchCI "Ago".data (l.drop ws.length) with
  | some (m, _) => some (ws ++ m)
  | none => none

/-- The unit-word alternation of the upload-time pattern, in source order.
The shorter alternative is listed before its extension, exactly as in the
pattern, so backtracking into the next alternative matters. -/
def agoWords : List String := ["Hr", "Hour", "Min", "Minute", "Day", "Week"]

/-- Try each unit word in order; on a word match whose continuation fails,
fall through to the next alternative (regex backtracking). -/
def tryAgoWords : List String → List Char → Option (List Char)
  | [], _ => none
  | w :: ws, l =>
    match matchCI w.data l with
    | some (m, rest) =>
      (match matchAgoTail rest with
       | some tail => some (m ++ tail)
       | none => tryAgoWords ws l)
    | none => tryAgoWords ws l

/-- Match of the upload-time pattern (digits, optional whitespace, unit word,
optional whitespace, Ago, all case-insensitive) at the head of the list. -/
def matchAgoAt (l : List Char) : Option String :=
  let ds := l.takeWhile Char.isDigit
  if ds.isEmpty then none
  else
    let r1 := l.drop ds.length
    let ws := r1.takeWhile Char.isWhitespace
    match tryAgoWords agoWords (r1.drop ws.length) with
    | some m => some ⟨ds ++ ws ++ m⟩
    | none => none

/-- Scan for the leftmost upload-time match. -/
def agoGo : List Char → Option String
  | [] => none
  | l@(_ :: t) => (matchAgoAt l).orElse fun _ => agoGo t

/-- `re.search` for the upload-time pattern over a string. -/
def findAgoMatch (s : String) : Option String :=
  agoGo s.data

/-! ## Episode extraction (scraper.py lines 44-175) -/

/-- The dictionary built by `extract_episode_data`. -/
structure Episode where
  title : String
  duration : String
  upload_time : String
  link : String
  thumbnail : String
  raw_text : String
deriving DecidableEq

/-- The img tag attributes read by the code. -/
structure Img where
  src : Option String
  dataSrc : Option String
deriving DecidableEq

/-- The data `extract_episode_data` reads from a BeautifulSoup element:
its tag name, its joined stripped text, the stripped texts of its
h2/h3/h4/span/div/a descendants in document order, its own href attribute,
the href of its first descendant anchor carrying an href, and its first
descendant img. -/
structure Element where
  name : String
  fullText : String
  titleTexts : List String
  href : Option String
  childHref : Option String
  img : Option Img

/-- scraper.py lines 112-175.  Returns none when the element text is shorter
than 20 characters; otherwise builds the episode dictionary: duration and
upload time from the regex searches, title from the first qualifying
descendant text (else the first long whitespace chunks, else empty), link
from the element or its first descendant anchor, thumbnail from the img
src or data-src, the title cleaned of duration and upload time with the
fallback Untitled Episode, and raw text truncated to 200 characters. -/
def extract_episode_data (el : Element) : Option Episode :=
  if el.fullText.length < 20 then none
  else
    let duration := (findTimeMatch el.fullText).getD ""
    let upload_time := (findAgoMatch el.fullText).getD ""
    let title0 :=
      match el.titleTexts.find? (fun t => !(t == "") && (strContainsSeg t "Episode" || decide (10 < t.length))) with
      | some t => t
      | none => ""
    let title :=
      if title0 = "" then
        let text_chunks := ((pySplit el.fullText).filter fun c => 5 < c.length).map String.trim
        if text_chunks = [] then title0 else String.intercalate " " (text_chunks.take 3)
      else title0
    let link :=
      if el.name = "a" ∧ el.href.getD "" ≠ "" then el.href.getD ""
      else el.childHref.getD ""
    let thumbnail :=
      match el.img with
      | none => ""
      | some im => if im.src.getD "" ≠ "" then im.src.getD "" else im.dataSrc.getD ""
    let ct1 :=
      if duration ≠ "" ∧ strContainsSeg title duration then (title.replace duration "").trim
      else title
    let clean_title :=
      if upload_time ≠ "" ∧ strContainsSeg ct1 upload_time then (ct1.replace upload_time "").trim
      else ct1
    some { title := if clean_title = "" then "Untitled Episode" else clean_title
         , duration := duration
         , upload_time := upload_time
         , link := link
         , thumbnail := thumbnail
         , raw_text := ⟨el.fullText.data.take 200⟩ }

/-- The candidate-collection loops of `extract_episodes_from_html`
(lines 59-99): each candidate element yields an optional episode; an episode
is appended when it is not already present in the accumulator. -/
def collectGo : List (Option Episode) → List Episode → List Episode
  | [], acc => acc
  | none :: rest, acc => collectGo rest acc
  | some ep :: rest, acc =>
    if ep ∈ acc then collectGo rest acc else collectGo rest (acc ++ [ep])

/-- The episodes list as accumulated by Methods 1 and 2 of
`extract_episodes_from_html`, starting from the empty list. -/
def collectEpisodes (cands : List (Option Episode)) : List Episode :=
  collectGo cands []

/-- The dedup loop of `extract_episodes_from_html` (lines 101-110): keep an
episode when its title is non-empty and not yet in the seen set. -/
def dedupAux : List Episode → List String → List Episode
  | [], _ => []
  | ep :: rest, seen =>
    if ep.title ≠ "" ∧ ep.title ∉ seen then ep :: dedupAux rest (ep.title :: seen)
    else dedupAux rest seen

/-- Lines 101-110 with the initial empty seen set. -/
def uniqueEpisodes (eps : List Episode) : List Episode :=
  dedupAux eps []

/-- scraper.py lines 44-110.  The DOM traversal that produces the candidate
elements is BeautifulSoup library code; its per-candidate results are the
`cands` argument.  The function collects them in order with the
membership check of lines 76-77 and 98-99, then removes duplicate titles. -/
def extract_episodes_from_html (cands : List (Option Episode)) : List Episode :=
  uniqueEpisodes (collectEpisodes cands)

/-! ## Navigation extraction (scraper.py lines 177-197) -/

/-- An anchor inside a navigation element: its stripped text, its href
attribute (present, since the code selects anchors carrying href), and its
title attribute defaulted to the empty string. -/
structure NavLink where
  text : String
  href : String
  title : String
deriving DecidableEq

/-- A navigation container element: the anchors with href found inside it,
in document order. -/
structure NavElem where
  links : List NavLink

/-- The parsed document as read by `extract_navigation`: the lookup the code
performs with soup.find on each selector string. -/
structure Soup where
  find : String → Option NavElem

/-- The dictionary appended for each kept navigation link. -/
structure NavItem where
  text : String
  url : String
  title : String
deriving DecidableEq

/-- The items contributed by one found navigation element: links whose
stripped text is truthy and longer than one character, mapped to the
text/url/title dictionary. -/
def navLinkItems (el : NavElem) : List NavItem :=
  (el.links.filter fun l => !(l.text == "") && decide (1 < l.text.length)).map
    fun l => { text := l.text, url := l.href, title := l.title }

/-- The selector list of line 182. -/
def nav_selectors : List String := ["nav", ".navbar", ".menu", ".navigation", "header"]

/-- The accumulation loop of lines 184-195: for each selector, when the
document lookup finds an element, append its qualifying link items. -/
def collectNavItems (soup : Soup) : List String → List NavItem
  | [] => []
  | sel :: rest =>
    (match soup.find sel with
     | none => []
     | some el => navLinkItems el) ++ collectNavItems soup rest

/-- scraper.py lines 177-197: accumulate over the selector list, return the
first 10 items. -/
def extract_navigation (soup : Soup) : List NavItem :=
  (collectNavItems soup nav_selectors).take 10

/-! ## Persistence (scraper.py lines 199-215, the JSON document) -/

/-- A JSON value, as far as the persisted document needs. -/
inductive Json where
  | jstr : String → Json
  | jnum : Nat → Json
  | jarr : List Json → Json
  | jobj : List (String × Json) → Json

/-- The JSON object serialized for one episode dictionary. -/
def episodeJson (e : Episode) : Json :=
  Json.jobj [("title", Json.jstr e.title), ("duration", Json.jstr e.duration),
             ("upload_time", Json.jstr e.upload_time), ("link", Json.jstr e.link),
             ("thumbnail", Json.jstr e.thumbnail), ("raw_text", Json.jstr e.raw_text)]

/-- The JSON object serialized for one navigation item. -/
def navItemJson (n : NavItem) : Json :=
  Json.jobj [("text", Json.jstr n.text), ("url", Json.jstr n.url),
             ("title", Json.jstr n.title)]

/-- The json_data dictionary of scraper.py lines 204-210, in source key
order.  The timestamp produced by datetime.now is the scraped_at argument. -/
def save_results_json (metadata : Json) (episodes : List Episode)
    (nav_items : List NavItem) (scraped_at : String) : Json :=
  Json.jobj [("metadata", metadata),
             ("episodes", Json.jarr (episodes.map episodeJson)),
             ("navigation", Json.jarr (nav_items.map navItemJson)),
             ("scraped_at", Json.jstr scraped_at),
             ("total_episodes", Json.jnum episodes.length)]

/-- Top-level keys of a JSON document, in order. -/
def topKeys : Json → List String
  | Json.jobj fields => fields.map Prod.fst
  | _ => []

/-- Top-level field lookup of a JSON document. -/
def topField (j : Json) (key : String) : Option Json :=
  match j with
  | Json.jobj fields => fields.lookup key
  | _ => none

/-! ## Page fetching (scraper.py lines 28-42) -/

/-- The request-level errors requests.get and raise_for_status can raise;
all are subclasses of RequestException. -/
inductive ReqError where
  | connectionFailure
  | timeoutExpired
  | httpStatusError (status : Nat)
deriving DecidableEq

/-- Outcome of the underlying HTTP exchange: a response with status code,
content type and body, or a raised request-level error. -/
inductive FetchOutcome where
  | ok (status : Nat) (contentType : String) (body : String)
  | err (e : ReqError)
deriving DecidableEq

/-- requests raise_for_status: raises HTTPError for 4xx and 5xx codes. -/
def raise_for_status (status : Nat) : Except ReqError Unit :=
  if 400 ≤ status ∧ status < 600 then Except.error (ReqError.httpStatusError status)
  else Except.ok ()

/-- The body of the try block of `get_page_content`: propagate a request
error, check the status, return the response text.  The content-type check
of line 36 only prints a warning and does not affect the result. -/
def fetch_and_check : FetchOutcome → Except ReqError String
  | FetchOutcome.err e => Except.error e
  | FetchOutcome.ok s _ b =>
    match raise_for_status s with
    | Except.error e => Except.error e
    | Except.ok _ => Except.ok b

/-- scraper.py lines 28-42: the except clause catches every RequestException
and returns None; otherwise the page text is returned. -/
def get_page_content (o : FetchOutcome) : Option String :=
  match fetch_and_check o with
  | Except.error _ => none
  | Except.ok b => some b

/-! ## Main entry point (scraper.py lines 250-325) -/

/-- The page-dependent inputs of main once the HTML is obtained: the episode
candidates produced by the soup scan and the parsed document for navigation
extraction. -/
structure PageModel where
  cands : List (Option Episode)
  soup : Soup

/-- How main terminates: the early return of lines 257-259, or normal
completion carrying the extracted results. -/
inductive MainOutcome where
  | earlyExit
  | completed (episodes : List Episode) (nav_items : List NavItem)

/-- scraper.py main, lines 250-321: on a failed fetch print and return;
otherwise extract episodes and navigation and save. -/
def run_main (fetch : FetchOutcome) (page : PageModel) : MainOutcome :=
  match get_page_content fetch with
  | none => MainOutcome.earlyExit
  | some _ =>
    MainOutcome.completed (extract_episodes_from_html page.cands)
      (extract_navigation page.soup)

/-- Lines 323-325: the script calls main() and ends.  Neither path of main
calls sys.exit, so the interpreter exits with code 0 whenever main returns,
on the early-exit path exactly as on the completed path. -/
def script_exit_code (fetch : FetchOutcome) (page : PageModel) : Nat :=
  match run_main fetch page with
  | MainOutcome.earlyExit => 0
  | MainOutcome.completed _ _ => 0

/-! ## Playback manifest resolution

Modelled from the spec: the repository source contains no playback-manifest
resolver; src/scraper.py only performs static listing extraction.  The
definitions below follow sections 3, 4.2 and 8 of the specification:
normalization strips the query string, classification is case-insensitive
by suffix and substring, and each kind of a ManifestSet is deduplicated,
sorted lexicographically and capped at 3 entries. -/

/-- Modelled from the spec: the two manifest kinds. -/
inductive ManifestKind where
  | hls
  | dash
deriving DecidableEq

/-- Modelled from the spec: normalization strips the query string, keeping
the characters before the first question mark. -/
def normalizeURL (u : String) : String :=
  ⟨u.data.takeWhile fun c => c != '?'⟩

/-- Lower-case image of a string, for case-insensitive classification. -/
def lowerStr (s : String) : String :=
  ⟨s.data.map Char.toLower⟩

/-- Modelled from the spec (section 4.2): case-insensitive classification,
m3u8 to HLS, and mpd, a dash path segment, or the substring manifest
to DASH. -/
def classify (u : String) : Option ManifestKind :=
  let l := lowerStr u
  if strContainsSeg l ".m3u8" then some ManifestKind.hls
  else if strContainsSeg l ".mpd" || strContainsSeg l "/dash/" || strContainsSeg l "manifest" then
    some ManifestKind.dash
  else none

/-- Insertion into a lexicographically sorted list of strings. -/
def insertSorted (a : String) : List String → List String
  | [] => [a]
  | b :: t => if a ≤ b then a :: b :: t else b :: insertSorted a t

/-- Modelled from the spec: lexicographic ascending sort, by insertion. -/
def sortStrings (l : List String) : List String :=
  l.foldr insertSorted []

/-- Modelled from the spec: the URLs of one kind — normalize every raw URL,
keep those classified as this kind, deduplicate, sort, cap at 3. -/
def kindURLs (k : ManifestKind) (urls : List String) : List String :=
  (sortStrings (((urls.map normalizeURL).filter fun u => decide (classify u = some k)).dedup)).take 3

/-- Modelled from the spec: the per-page result, partitioned by kind. -/
structure ManifestSet where
  hls : List String
  dash : List String
deriving DecidableEq

/-- Modelled from the spec: build the ManifestSet from all raw URLs
discovered during one resolution. -/
def buildManifestSet (urls : List String) : ManifestSet :=
  { hls := kindURLs ManifestKind.hls urls, dash := kindURLs ManifestKind.dash urls }

/-! ## Concrete sample inputs used by witnesses and counterexamples -/

/-- Two candidate episodes sharing a title but with distinct page links. -/
def epA : Episode :=
  { title := "Episode 1", duration := "", upload_time := "", link := "https://a/1"
  , thumbnail := "", raw_text := "" }

/-- Same title as epA, different link. -/
def epB : Episode :=
  { title := "Episode 1", duration := "", upload_time := "", link := "https://a/2"
  , thumbnail := "", raw_text := "" }

/-- Two candidate episodes with distinct non-empty titles. -/
def epC : Episode :=
  { title := "Episode 2", duration := "", upload_time := "", link := "https://a/3"
  , thumbnail := "", raw_text := "" }

/-- A concrete element on which episode extraction succeeds. -/
def sampleElement : Element :=
  { name := "div", fullText := "Episode 12 something long here"
  , titleTexts := ["Episode 12"], href := none, childHref := none, img := none }

/-- A concrete parsed document with one nav element holding one link. -/
def soup0 : Soup :=
  ⟨fun sel => if sel = "nav" then some ⟨[⟨"Home", "/home", ""⟩]⟩ else none⟩

/-- A page model with no candidates and an empty document. -/
def emptyPage : PageModel :=
  ⟨[], ⟨fun _ => none⟩⟩

/-! ## Helper lemmas -/

/-- Every episode surviving the dedup loop has a fresh non-empty title. -/
theorem dedupAux_titles (l : List Episode) :
    ∀ seen : List String,
      ((dedupAux l seen).map Episode.title).Nodup
      ∧ ∀ t ∈ (dedupAux l seen).map Episode.title, t ≠ "" ∧ t ∉ seen := by
  induction l with
  | nil => intro seen; simp [dedupAux]
  | cons ep rest ih =>
    intro seen
    by_cases h : ep.title ≠ "" ∧ ep.title ∉ seen
    · rw [dedupAux, if_pos h]
      obtain ⟨ihN, ihM⟩ := ih (ep.title :: seen)
      constructor
      · simp only [List.map_cons, List.nodup_cons]
        exact ⟨fun hmem => ((ihM _ hmem).2) (List.mem_cons_self _ _), ihN⟩
      · intro t ht
        simp only [List.map_cons, List.mem_cons] at ht
        rcases ht with rfl | ht
        · exact ⟨h.1, h.2⟩
        · obtain ⟨h1, h2⟩ := ihM t ht
          exact ⟨h1, fun hs => h2 (List.mem_cons_of_mem _ hs)⟩
    · rw [dedupAux, if_neg h]
      exact ih seen

/-- The dedup loop only drops elements; it never reorders or invents them. -/
theorem dedupAux_sublist (l : List Episode) :
    ∀ seen : List String, List.Sublist (dedupAux l seen) l := by
  induction l with
  | nil => intro seen; simp [dedupAux]
  | cons ep rest ih =>
    intro seen
    rw [dedupAux]
    split
    · exact (ih _).cons₂ ep
    · exact (ih seen).cons ep

/-- The collection loop adds at most one episode per candidate. -/
theorem collectGo_length (cands : List (Option Episode)) :
    ∀ acc : List Episode, (collectGo cands acc).length ≤ acc.length + cands.length := by
  induction cands with
  | nil => intro acc; simp [collectGo]
  | cons c rest ih =>
    intro acc
    cases c with
    | none =>
      rw [collectGo]
      exact (ih acc).trans (by simp)
    | some ep =>
      rw [collectGo]
      split
      · exact (ih acc).trans (by simp)
      · have h := ih (acc ++ [ep])
        simp [List.length_append] at h ⊢
        omega

/-- Membership through insertion. -/
theorem mem_insertSorted (a y : String) (l : List String) :
    y ∈ insertSorted a l ↔ y = a ∨ y ∈ l := by
  induction l with
  | nil => simp [insertSorted]
  | cons b t ih =>
    rw [insertSorted]
    split
    · simp [List.mem_cons]
    · simp only [List.mem_cons, ih]
      tauto

/-- Insertion preserves sortedness. -/
theorem pairwise_insertSorted (a : String) (l : List String)
    (h : l.Pairwise fun x y => x ≤ y) :
    (insertSorted a l).Pairwise fun x y => x ≤ y := by
  induction l with
  | nil => simp [insertSorted]
  | cons b t ih =>
    rw [List.pairwise_cons] at h
    obtain ⟨hb, ht⟩ := h
    rw [insertSorted]
    split
    · rename_i hab
      refine List.pairwise_cons.2 ⟨?_, List.pairwise_cons.2 ⟨hb, ht⟩⟩
      intro y hy
      rcases List.mem_cons.1 hy with rfl | hy
      · exact hab
      · exact le_trans hab (hb y hy)
    · rename_i hab
      refine List.pairwise_cons.2 ⟨?_, ih ht⟩
      intro y hy
      rcases (mem_insertSorted a y t).1 hy with rfl | hy
      · exact le_of_not_le hab
      · exact hb y hy

/-- The insertion sort produces an ascending list. -/
theorem pairwise_sortStrings (l : List String) :
    (sortStrings l).Pairwise fun x y => x ≤ y := by
  induction l with
  | nil => simp [sortStrings]
  | cons a t ih => exact pairwise_insertSorted a (sortStrings t) ih

/-- Every item accumulated over the selector list comes from a link of a
found navigation element. -/
theorem mem_collectNavItems (soup : Soup) (item : NavItem) :
    ∀ sels : List String, item ∈ collectNavItems soup sels →
      ∃ sel el, soup.find sel = some el ∧ item ∈ navLinkItems el := by
  intro sels
  induction sels with
  | nil => intro h; simp [collectNavItems] at h
  | cons sel rest ih =>
    intro h
    rw [collectNavItems] at h
    rcases List.mem_append.1 h with h | h
    · cases hf : soup.find sel with
      | none => rw [hf] at h; simp at h
      | some el => rw [hf] at h; exact ⟨sel, el, hf, h⟩
    · exact ih h

/-- The title fallback of line 166 never yields an empty string. -/
theorem untitled_fallback_ne (c : String) :
    (if c = "" then "Untitled Episode" else c) ≠ "" := by
  split
  · decide
  · assumption

/-- Stripping a query leaves the base of the URL. -/
theorem takeWhile_append_query (l₁ l₂ : List Char) (h : '?' ∉ l₁) :
    (l₁ ++ '?' :: l₂).takeWhile (fun c => c != '?') = l₁ := by
  induction l₁ with
  | nil => simp [List.takeWhile]
  | cons a t ih =>
    simp only [List.mem_cons, not_or] at h
    have ha : (a != '?') = true := by
      simp only [bne_iff_ne, ne_eq]
      exact fun e => h.1 e.symm
    simp [List.takeWhile_cons, ha, ih h.2]

/-- Normalization of a URL with a query string yields the base URL. -/
theorem normalizeURL_strip (base q : String) (h : '?' ∉ base.data) :
    normalizeURL (base ++ "?" ++ q) = base := by
  unfold normalizeURL
  have hd : (base ++ "?" ++ q).data = base.data ++ '?' :: q.data := by
    simp [String.data_append]
  rw [hd, takeWhile_append_query base.data q.data h]

/-! ## Claim theorems -/

/-- C3 counterexample: two extracted items with distinct page links but equal
titles; the result keeps only the first, so deduplication is not keyed on the
page URL. -/
theorem dedup_by_pageurl_counterexample :
    epA.link ≠ epB.link ∧ extract_episodes_from_html [some epA, some epB] = [epA] := by
  decide

/-- C3 amended: deduplication of extracted items is keyed on the title: a
pair with distinct non-empty titles is kept whole even when links differ,
while a pair sharing one non-empty title keeps only the first item. -/
theorem dedup_keyed_on_title (e1 e2 : Episode)
    (h1 : e1.title ≠ "") (h2 : e2.title ≠ "") :
    (e1.title ≠ e2.title → uniqueEpisodes [e1, e2] = [e1, e2])
    ∧ (e1.title = e2.title → uniqueEpisodes [e1, e2] = [e1]) := by
  constructor
  · intro hne
    simp [uniqueEpisodes, dedupAux, h1, h2, Ne.symm hne]
  · intro heq
    simp [uniqueEpisodes, dedupAux, h1, h2, heq.symm]

/-- Witness for the amended C3 at concrete episodes. -/
theorem dedup_keyed_on_title_witness :
    uniqueEpisodes [epA, epC] = [epA, epC] ∧ uniqueEpisodes [epA, epB] = [epA] :=
  ⟨(dedup_keyed_on_title epA epC (by decide) (by decide)).1 (by decide),
   (dedup_keyed_on_title epA epB (by decide) (by decide)).2 (by decide)⟩

/-- C4 counterexample: two candidates both yielding episodes, but the result
has one element — the title dedup drops the second item, so the result length
does not equal the number of inputs. -/
theorem result_length_counterexample :
    (extract_episodes_from_html [some epA, some epB]).length ≠
      ([some epA, some epB] : List (Option Episode)).length := by
  decide

/-- C4 amended: the result is a subsequence of the collected episodes in
input order, and its length is at most the number of input candidates; items
with duplicate or empty titles are dropped by the dedup rather than kept one
per input. -/
theorem result_length_le (cands : List (Option Episode)) :
    List.Sublist (extract_episodes_from_html cands) (collectEpisodes cands)
    ∧ (extract_episodes_from_html cands).length ≤ cands.length := by
  have hs := dedupAux_sublist (collectEpisodes cands) []
  refine ⟨hs, le_trans hs.length_le ?_⟩
  have h := collectGo_length cands []
  simpa using h

/-- C5 counterexample: the persisted document's top level has the keys
metadata, episodes, navigation, scraped_at and total_episodes — it has no
stats object and no videos array as the claim requires. -/
theorem save_results_shape_counterexample :
    topKeys (save_results_json (Json.jobj []) [] [] "2026-01-01T00:00:00") =
      ["metadata", "episodes", "navigation", "scraped_at", "total_episodes"]
    ∧ "stats" ∉ topKeys (save_results_json (Json.jobj []) [] [] "2026-01-01T00:00:00")
    ∧ "videos" ∉ topKeys (save_results_json (Json.jobj []) [] [] "2026-01-01T00:00:00") := by
  decide

/-- C5 amended: the persisted JSON document's top-level content is exactly a
metadata object, the ordered episodes array, the navigation array, a
scraped_at timestamp, and a total_episodes count equal to the number of
episodes; there is no stats object and no videos array. -/
theorem save_results_shape (metadata : Json) (episodes : List Episode)
    (nav_items : List NavItem) (scraped_at : String) :
    topKeys (save_results_json metadata episodes nav_items scraped_at) =
      ["metadata", "episodes", "navigation", "scraped_at", "total_episodes"]
    ∧ topField (save_results_json metadata episodes nav_items scraped_at) "episodes" =
        some (Json.jarr (episodes.map episodeJson))
    ∧ topField (save_results_json metadata episodes nav_items scraped_at) "total_episodes" =
        some (Json.jnum episodes.length) :=
  ⟨rfl, rfl, rfl⟩

/-- C6: the page fetch either returns the body text or catches every
request-level error — connection failure, timeout, HTTP error status — and
returns None; every outcome is mapped to a value, never an escaping
exception. -/
theorem get_page_content_no_escape (o : FetchOutcome) :
    (∀ e, o = FetchOutcome.err e → get_page_content o = none)
    ∧ (∀ s ct b, o = FetchOutcome.ok s ct b → 400 ≤ s → s < 600 →
        get_page_content o = none)
    ∧ (∀ s ct b, o = FetchOutcome.ok s ct b → ¬(400 ≤ s ∧ s < 600) →
        get_page_content o = some b) := by
  refine ⟨?_, ?_, ?_⟩
  · rintro e rfl; rfl
  · rintro s ct b rfl h4 h6
    simp [get_page_content, fetch_and_check, raise_for_status, h4, h6]
  · rintro s ct b rfl hnot
    simp [get_page_content, fetch_and_check, raise_for_status, hnot]

/-- Witness for C6 at a concrete connection failure. -/
theorem get_page_content_no_escape_witness :
    get_page_content (FetchOutcome.err ReqError.connectionFailure) = none :=
  (get_page_content_no_escape (FetchOutcome.err ReqError.connectionFailure)).1
    ReqError.connectionFailure rfl

/-- C7 counterexample: when the initial fetch fails the batch cannot start,
yet main returns normally through the early exit and the process exit code
is 0, not non-zero. -/
theorem exit_code_counterexample :
    run_main (FetchOutcome.err ReqError.connectionFailure) emptyPage = MainOutcome.earlyExit
    ∧ script_exit_code (FetchOutcome.err ReqError.connectionFailure) emptyPage = 0 :=
  ⟨rfl, rfl⟩

/-- C7 amended: the process exit code is 0 on every path, including when the
initial fetch fails before any target is processed; a startup failure is
reported only by an early return with a message, never by a non-zero exit
code. -/
theorem exit_code_always_zero (fetch : FetchOutcome) (page : PageModel) :
    script_exit_code fetch page = 0 := by
  rw [script_exit_code]
  split <;> rfl

/-- C8: the list returned by extract_episodes_from_html has pairwise-distinct
titles and no empty title. -/
theorem extract_episodes_titles_nodup (cands : List (Option Episode)) :
    ((extract_episodes_from_html cands).map Episode.title).Nodup
    ∧ "" ∉ (extract_episodes_from_html cands).map Episode.title := by
  have h := dedupAux_titles (collectEpisodes cands) []
  exact ⟨h.1, fun hmem => (h.2 "" hmem).1 rfl⟩

/-- C9: whenever extract_episode_data returns a value, the title is
non-empty, the raw text has length at most 200, and the element's full text
had length at least 20. -/
theorem extract_episode_data_spec (el : Element) (ep : Episode)
    (h : extract_episode_data el = some ep) :
    ep.title ≠ "" ∧ ep.raw_text.length ≤ 200 ∧ 20 ≤ el.fullText.length := by
  unfold extract_episode_data at h
  by_cases hlen : el.fullText.length < 20
  · rw [if_pos hlen] at h
    simp at h
  · rw [if_neg hlen] at h
    simp only [Option.some.injEq] at h
    subst h
    refine ⟨untitled_fallback_ne _, ?_, by omega⟩
    show (el.fullText.data.take 200).length ≤ 200
    exact List.length_take_le 200 _

/-- Witness for C9 at a concrete element. -/
theorem extract_episode_data_spec_witness :
    (Episode.mk "Episode 12" "" "" "" "" "Episode 12 something long here").title ≠ ""
    ∧ (Episode.mk "Episode 12" "" "" "" "" "Episode 12 something long here").raw_text.length ≤ 200
    ∧ 20 ≤ sampleElement.fullText.length :=
  extract_episode_data_spec sampleElement
    (Episode.mk "Episode 12" "" "" "" "" "Episode 12 something long here") (by decide)

/-- C10: extract_navigation returns at most 10 items, every item's text is
longer than one character, and every item's url is the href of a link of a
found navigation element. -/
theorem extract_navigation_spec (soup : Soup) :
    (extract_navigation soup).length ≤ 10
    ∧ ∀ item ∈ extract_navigation soup,
        1 < item.text.length
        ∧ ∃ sel el l, soup.find sel = some el ∧ l ∈ el.links
            ∧ item.text = l.text ∧ item.url = l.href := by
  refine ⟨List.length_take_le 10 _, ?_⟩
  intro item hmem
  have hmem2 : item ∈ collectNavItems soup nav_selectors :=
    (List.take_sublist 10 _).subset hmem
  obtain ⟨sel, el, hf, hin⟩ := mem_collectNavItems soup item nav_selectors hmem2
  unfold navLinkItems at hin
  rcases List.mem_map.1 hin with ⟨l, hl, rfl⟩
  rcases List.mem_filter.1 hl with ⟨hl2, hcond⟩
  simp only [Bool.and_eq_true, bne_iff_ne, ne_eq, decide_eq_true_eq] at hcond
  exact ⟨hcond.2, sel, el, l, hf, hl2, rfl, rfl⟩

/-- Witness for C10 at a concrete document. -/
theorem extract_navigation_spec_witness :
    1 < (NavItem.mk "Home" "/home" "").text.length
    ∧ ∃ sel el l, soup0.find sel = some el ∧ l ∈ el.links
        ∧ (NavItem.mk "Home" "/home" "").text = l.text
        ∧ (NavItem.mk "Home" "/home" "").url = l.href :=
  (extract_navigation_spec soup0).2 (NavItem.mk "Home" "/home" "") (by decide)

/-- C1: normalization strips the query string before deduplication, so the
same manifest URL discovered twice with different query strings — once in
markup, once in traffic — yields exactly one HLS entry, the base URL. -/
theorem manifest_query_dedup (base q1 q2 : String)
    (hq : '?' ∉ base.data) (hk : classify base = some ManifestKind.hls) :
    (buildManifestSet [base ++ "?" ++ q1, base ++ "?" ++ q2]).hls = [base]
    ∧ (buildManifestSet [base ++ "?" ++ q1, base ++ "?" ++ q2]).dash = [] := by
  have h1 := normalizeURL_strip base q1 hq
  have h2 := normalizeURL_strip base q2 hq
  have hmap : ([base ++ "?" ++ q1, base ++ "?" ++ q2].map normalizeURL) = [base, base] := by
    simp [h1, h2]
  have hded : ([base, base] : List String).dedup = [base] := by
    simp
  constructor
  · show (sortStrings ((([base ++ "?" ++ q1, base ++ "?" ++ q2].map normalizeURL).filter
      fun u => decide (classify u = some ManifestKind.hls)).dedup)).take 3 = [base]
    rw [hmap]
    have hfil : (([base, base] : List String).filter
        fun u => decide (classify u = some ManifestKind.hls)) = [base, base] := by
      simp [hk]
    rw [hfil, hded]
    rfl
  · show (sortStrings ((([base ++ "?" ++ q1, base ++ "?" ++ q2].map normalizeURL).filter
      fun u => decide (classify u = some ManifestKind.dash)).dedup)).take 3 = []
    rw [hmap]
    have hfil : (([base, base] : List String).filter
        fun u => decide (classify u = some ManifestKind.dash)) = [] := by
      simp [hk]
    rw [hfil]
    rfl

/-- Witness for C1 at the URLs of the specification example. -/
theorem manifest_query_dedup_witness :
    (buildManifestSet ["https://cdn.example/video/index.m3u8" ++ "?" ++ "token=abc",
                       "https://cdn.example/video/index.m3u8" ++ "?" ++ "token=xyz"]).hls =
      ["https://cdn.example/video/index.m3u8"]
    ∧ (buildManifestSet ["https://cdn.example/video/index.m3u8" ++ "?" ++ "token=abc",
                         "https://cdn.example/video/index.m3u8" ++ "?" ++ "token=xyz"]).dash = [] :=
  manifest_query_dedup "https://cdn.example/video/index.m3u8" "token=abc" "token=xyz"
    (by decide) (by decide)

/-- C2: each kind's URL array of a built ManifestSet is sorted ascending and
has at most 3 entries. -/
theorem manifest_set_sorted_capped (urls : List String) :
    (buildManifestSet urls).hls.Pairwise (fun a b => a ≤ b)
    ∧ (buildManifestSet urls).hls.length ≤ 3
    ∧ (buildManifestSet urls).dash.Pairwise (fun a b => a ≤ b)
    ∧ (buildManifestSet urls).dash.length ≤ 3 := by
  refine ⟨?_, List.length_take_le 3 _, ?_, List.length_take_le 3 _⟩ <;>
    exact (pairwise_sortStrings _).sublist (List.take_sublist 3 _)
